import Mathlib

/-!
# Verification of `serial/tools/list_ports_windows.py`

A shallow embedding of the Windows serial-port enumeration module
(`thonny/vendored_libs/serial/tools/list_ports_windows.py`).  The Windows
device-management, registry and I/O-control primitives are opaque to the
module, so they are modelled as a record of oracles (`Env`): each field
captures the observable response of one OS call, keyed by the arguments the
call receives.  Machine integers (u8/u16/u32 descriptor fields, CONFIGRET
codes, handles) are modelled as `Nat`; Python's `None`-or-value results are
`Option`; Python exceptions are `Except PyErr`.  Buffers returned by
descriptor I/O-control requests are byte lists (`List Nat`) that the module
decodes exactly as the ctypes casts in the source do.
-/

/-! ## Constants from the source -/

def CR_SUCCESS : Nat := 0
def CR_BUFFER_SMALL : Nat := 26
def INVALID_HANDLE_VALUE : Nat := 0
def ERROR_INSUFFICIENT_BUFFER : Nat := 122
def ERROR_NOT_FOUND : Nat := 1168
def DEVPROP_TYPEMOD_LIST : Nat := 0x00002000
def DEVPROP_TYPE_UINT32 : Nat := 0x00000007
def DEVPROP_TYPE_STRING : Nat := 0x00000012
def DEVPROP_TYPE_STRING_LIST : Nat := DEVPROP_TYPE_STRING ||| DEVPROP_TYPEMOD_LIST
def USB_DEVICE_DESCRIPTOR_TYPE : Nat := 1
def USB_CONFIGURATION_DESCRIPTOR_TYPE : Nat := 2
def USB_STRING_DESCRIPTOR_TYPE : Nat := 3
def USB_INTERFACE_DESCRIPTOR_TYPE : Nat := 4
def MAX_USB_DEVICE_TREE_TRAVERSAL_DEPTH : Nat := 5

/-- `str(GUID_DEVINTERFACE_USB_HUB)` as produced by `GUID.__str__`. -/
def guidDevinterfaceUsbHubStr : String := "\x7bf18a0e88-c30c-11d0-8815-00a0c906bed8\x7d"

/-! ## Python-level values and errors -/

/-- A Python exception escaping one of the modelled functions. -/
inductive PyErr where
  /-- `ctypes.WinError(code)` -/
  | winError (code : Nat)
  /-- `NotImplementedError` raised by `get_device_property` for an unknown `DEVPROPTYPE` -/
  | notImplemented (propType : Nat)
  /-- `TypeError` (e.g. iterating or subscripting a non-sequence) -/
  | typeError
  /-- `ValueError` from `int(...)` on a non-decimal string -/
  | valueError
deriving DecidableEq, Repr

instance {ε α : Type _} [DecidableEq ε] [DecidableEq α] : DecidableEq (Except ε α) := fun x y =>
  match x, y with
  | .ok a, .ok b => if h : a = b then .isTrue (by rw [h]) else .isFalse (by simp [h])
  | .error a, .error b => if h : a = b then .isTrue (by rw [h]) else .isFalse (by simp [h])
  | .ok _, .error _ => .isFalse (by simp)
  | .error _, .ok _ => .isFalse (by simp)

/-- The typed value produced by `get_device_property` (a `ULONG`, a wide
string, or a multi-sz string list). -/
inductive DevProp where
  | uint32Val (n : Nat)
  | strVal (s : String)
  | strListVal (l : List String)
deriving DecidableEq, Repr

/-- The `DEVPROPKEY`s this module queries through `CM_Get_DevNode_PropertyW`. -/
inductive PropKey where
  | address             -- DEVPKEY_Device_Address
  | busReportedDeviceDesc
  | friendlyName
  | locationPaths
deriving DecidableEq, Repr

/-- Result of `CM_Get_Parent`: a parent instance number, or a nonzero
CONFIGRET code. -/
inductive CmResult where
  | ok (inst : Nat)
  | err (ret : Nat)
deriving DecidableEq, Repr

/-- Result of `CM_Get_Device_IDW`: an instance-identifier string, or a
nonzero CONFIGRET code. -/
inductive CmStrResult where
  | ok (s : String)
  | err (ret : Nat)
deriving DecidableEq, Repr

/-! ## USB descriptor records (fixed layout, USB 2.0) -/

structure USB_DEVICE_DESCRIPTOR where
  bLength : Nat
  bDescriptorType : Nat
  bcdUSB : Nat
  bDeviceClass : Nat
  bDeviceSubClass : Nat
  bDeviceProtocol : Nat
  bMaxPacketSize0 : Nat
  idVendor : Nat
  idProduct : Nat
  bcdDevice : Nat
  iManufacturer : Nat
  iProduct : Nat
  iSerialNumber : Nat
  bNumConfigurations : Nat
deriving DecidableEq, Repr

structure USB_CONFIGURATION_DESCRIPTOR where
  bLength : Nat
  bDescriptorType : Nat
  wTotalLength : Nat
  bNumInterfaces : Nat
  bConfigurationValue : Nat
  iConfiguration : Nat
  bmAttributes : Nat
  MaxPower : Nat
deriving DecidableEq, Repr

structure USB_INTERFACE_DESCRIPTOR where
  bLength : Nat
  bDescriptorType : Nat
  bInterfaceNumber : Nat
  bAlternateSetting : Nat
  bNumEndpoints : Nat
  bInterfaceClass : Nat
  bInterfaceSubClass : Nat
  bInterfaceProtocol : Nat
  iInterface : Nat
deriving DecidableEq, Repr

/-- The string-descriptor view of a filled request buffer: the reported
`bLength` and the wide-character array contents (UTF-16 decoding of the raw
buffer is abstracted into the oracle). -/
structure USB_STRING_DESCRIPTOR where
  bLength : Nat
  bDescriptorType : Nat
  bString : List Char
deriving DecidableEq, Repr

structure USB_NODE_CONNECTION_INFORMATION_EX where
  ConnectionIndex : Nat
  DeviceDescriptor : USB_DEVICE_DESCRIPTOR
  CurrentConfigurationValue : Nat
  Speed : Nat
  DeviceIsHub : Nat
  DeviceAddress : Nat
  NumberOfOpenPipes : Nat
  ConnectionStatus : Nat
deriving DecidableEq, Repr

/-! ## The port-info record

The cross-platform `ListPortInfo` record (from `serial.tools.list_ports_common`,
outside the sources under verification) is treated as a plain record of
fields, as §3 of the spec prescribes.  Fields that the Python code may
assign arbitrary property values (`interface`, `name`) hold `Option DevProp`. -/

structure Info where
  device : String
  name : Option DevProp := none
  description : Option String := none
  hwid : Option String := none
  vid : Option Nat := none
  pid : Option Nat := none
  serial_number : Option String := none
  location : Option String := none
  manufacturer : Option String := none
  product : Option String := none
  interface : Option DevProp := none
deriving DecidableEq, Repr

/-- Modelled from the spec: the `ListPortInfo` constructor
(`serial.tools.list_ports_common`, not under the verified sources) —
"Construct a PortInfo seeded with the port name"; optional fields start
absent. -/
def ListPortInfo.init (device : String) : Info := { device := device }

/-! ## Two-phase property query responses

`CM_Get_DevNode_PropertyW` is called twice: once with a null buffer to
discover the size, once with a buffer of that size.  The oracle reports the
two CONFIGRET codes, the final `DEVPROPTYPE`, and the decodings of the
returned buffer under each of the three interpretations the module applies
(wide string, `ULONG`, multi-sz list); the byte-level decodings themselves
are abstracted. -/
structure PropResp where
  ret1 : Nat
  ret2 : Nat
  propType : Nat
  asString : String := ""
  asUint32 : Nat := 0
  asStringList : List String := []
deriving DecidableEq, Repr

/-! ## The environment: oracles for every OS call the module makes -/

structure Env where
  /-- `CM_Get_Parent` -/
  cmGetParent : Nat → CmResult
  /-- `CM_Get_Device_IDW` -/
  cmGetDeviceId : Nat → CmStrResult
  /-- `CM_MapCrToWin32Err` -/
  mapCrToWin32 : Nat → Nat
  /-- `CM_Get_DevNode_Status` returned `CR_SUCCESS`? -/
  nodeStatusOk : Nat → Bool
  /-- `CM_Get_DevNode_PropertyW` two-phase responses per (instance, key) -/
  prop : Nat → PropKey → PropResp
  /-- `CreateFileW` on the hub path; `INVALID_HANDLE_VALUE` (0) signals failure -/
  createFile : String → Nat
  /-- `DeviceIoControl` `IOCTL_USB_GET_NODE_CONNECTION_INFORMATION_EX` per (handle, port) -/
  ioConnectionInfo : Nat → Nat → Option USB_NODE_CONNECTION_INFORMATION_EX
  /-- descriptor-request ioctl, device descriptor (wValue = 1<<8, wLength 18):
  returned buffer bytes past the request header, or `none` on failure -/
  ioDeviceDesc : Nat → Nat → Option (List Nat)
  /-- descriptor-request ioctl, configuration descriptor header
  (wValue = 2<<8 ||| idx, wLength 9) per (handle, port, idx) -/
  ioConfigDesc : Nat → Nat → Int → Option (List Nat)
  /-- descriptor-request ioctl, full configuration block
  (wValue = 2<<8 ||| idx, wLength = wTotalLength) per (handle, port, idx, wTotalLength) -/
  ioFullConfig : Nat → Nat → Int → Nat → Option (List Nat)
  /-- descriptor-request ioctl, string descriptor per (handle, port, index) -/
  ioStringDesc : Nat → Nat → Nat → Option USB_STRING_DESCRIPTOR
  /-- `SetupDiClassGuidsFromNameW "Ports"`: the resolved class GUIDs, `none` on failure -/
  portsClassGuids : Option (List Nat) := some []
  /-- `SetupDiClassGuidsFromNameW "Modem"` -/
  modemClassGuids : Option (List Nat) := some []
  /-- `SetupDiGetClassDevs` + `SetupDiEnumDeviceInfo`: the `DevInst` sequence per class GUID -/
  classDevices : Nat → List Nat := fun _ => []
  /-- instance numbers of all present USB hub devices -/
  hubDevInsts : List Nat := []
  /-- `RegQueryValueEx "PortName"` (the source ignores its return code) -/
  regPortName : Nat → String := fun _ => ""
  /-- `SetupDiGetDeviceInstanceIdW` per device -/
  instanceIdOf : Nat → Option String := fun _ => none
  /-- `SetupDiGetDeviceRegistryPropertyW SPDRP_HARDWAREID` fallback -/
  regHardwareId : Nat → Option String := fun _ => none
  /-- `ctypes.GetLastError()` after both hardware-ID reads failed -/
  lastErr : Nat → Nat := fun _ => 0
  /-- `ctypes.GetLastError()` after a `SetupDiClassGuidsFromName` failure -/
  setupLastError : Nat := 0
  /-- `SetupDiGetDeviceRegistryPropertyW SPDRP_MFG` -/
  regManufacturer : Nat → Option String := fun _ => none
  /-- `SetupDiGetDeviceRegistryPropertyW SPDRP_FRIENDLYNAME` -/
  regFriendlyName : Nat → Option String := fun _ => none
  /-- `SetupDiGetDevicePropertyW DEVPKEY_Device_BusReportedDeviceDesc` -/
  setupDiBusReportedDesc : Nat → Option String := fun _ => none
  /-- `ListPortInfo.usb_info` (from `list_ports_common`, outside the verified sources) -/
  usbInfoStr : Info → String := fun _ => ""
  /-- `ListPortInfo.apply_usb_info` (outside the verified sources) -/
  applyUsbInfo : Info → Info := fun i => i

/-! ## String / regex helpers

The module uses four fixed regular expressions.  They are implemented here as
direct scanners over `List Char`, restricted to the ASCII fragment of `\w`
(all inputs produced by the Windows APIs in question are ASCII). -/

/-- ASCII fragment of the regex class `\w`. -/
def wordChar (c : Char) : Bool := c.isAlphanum || c = '_'

/-- `re.match(r'^\w+$', s)` succeeds (nonempty, all word characters). -/
def isWordStr (s : String) : Bool := s.length > 0 && s.toList.all wordChar

/-- The regex class `[0-9a-f]` under `re.I`. -/
def isHexDigitChar (c : Char) : Bool :=
  c.isDigit || ('a' ≤ c && c ≤ 'f') || ('A' ≤ c && c ≤ 'F')

/-- Numeric value of a hex digit (the scanners only apply it to hex digits). -/
def hexDigitVal (c : Char) : Nat :=
  if '0' ≤ c ∧ c ≤ '9' then c.toNat - '0'.toNat
  else if 'a' ≤ c ∧ c ≤ 'f' then c.toNat - 'a'.toNat + 10
  else if 'A' ≤ c ∧ c ≤ 'F' then c.toNat - 'A'.toNat + 10
  else 0

/-- `int(s, 16)` on a string of hex digits. -/
def hexToNat (s : String) : Nat :=
  s.toList.foldl (fun acc c => acc * 16 + hexDigitVal c) 0

/-- `int(s)` (base 10): digits only, nonempty; `none` models `ValueError`. -/
def pyIntDec (s : String) : Option Nat :=
  if s.length > 0 && s.toList.all Char.isDigit then
    some (s.toList.foldl (fun acc c => acc * 10 + (c.toNat - '0'.toNat)) 0)
  else none

/-- Match a literal (given in uppercase) case-insensitively at the head of
the input; returns the rest. -/
def matchLitCI : List Char → List Char → Option (List Char)
  | [], rest => some rest
  | _ :: _, [] => none
  | l :: ls, c :: cs => if c.toUpper = l then matchLitCI ls cs else none

/-- Take exactly `n` hex digits from the head. -/
def takeHexDigits : Nat → List Char → Option (String × List Char)
  | 0, cs => some ("", cs)
  | _ + 1, [] => none
  | n + 1, c :: cs =>
    if isHexDigitChar c then
      match takeHexDigits n cs with
      | some (s, rest) => some (String.singleton c ++ s, rest)
      | none => none
    else none

/-- Take exactly `n` decimal digits from the head. -/
def takeDecDigits : Nat → List Char → Option (String × List Char)
  | 0, cs => some ("", cs)
  | _ + 1, [] => none
  | n + 1, c :: cs =>
    if c.isDigit then
      match takeDecDigits n cs with
      | some (s, rest) => some (String.singleton c ++ s, rest)
      | none => none
    else none

/-- Groups of `re.search(r'VID_([0-9a-f]{4})(&PID_([0-9a-f]{4}))?(&MI_(\d{2}))?(\\(.*))?', s, re.I)`. -/
structure HwMatch where
  /-- group 1 (always present on a match) -/
  vidHex : String
  /-- group 3 -/
  pidHex : Option String := none
  /-- group 5 -/
  miDigits : Option String := none
  /-- group 7 (`none` when the backslash group did not participate) -/
  serial : Option String := none
deriving DecidableEq, Repr

/-- Try the whole VID pattern anchored at the current position.  The three
trailing groups are optional and independent, so no backtracking occurs. -/
def vidMatchAt (cs : List Char) : Option HwMatch :=
  match matchLitCI ['V', 'I', 'D', '_'] cs with
  | none => none
  | some rest =>
    match takeHexDigits 4 rest with
    | none => none
    | some (vid, rest1) =>
      let (pid, rest2) :=
        match matchLitCI ['&', 'P', 'I', 'D', '_'] rest1 with
        | some r =>
          match takeHexDigits 4 r with
          | some (p, r2) => (some p, r2)
          | none => (none, rest1)
        | none => (none, rest1)
      let (mi, rest3) :=
        match matchLitCI ['&', 'M', 'I', '_'] rest2 with
        | some r =>
          match takeDecDigits 2 r with
          | some (d, r2) => (some d, r2)
          | none => (none, rest2)
        | none => (none, rest2)
      let serial :=
        match rest3 with
        | '\\' :: r => some (String.mk (r.takeWhile (· ≠ '\n')))
        | _ => none
      some { vidHex := vid, pidHex := pid, miDigits := mi, serial := serial }

/-- `re.search` for the VID/PID/MI/serial pattern: leftmost match. -/
def findVidMatch : List Char → Option HwMatch
  | [] => none
  | c :: rest =>
    match vidMatchAt (c :: rest) with
    | some m => some m
    | none => findVidMatch rest

/-- Groups of `re.search(r'VID_([0-9a-f]{4})\+PID_([0-9a-f]{4})(\+(\w+))?', s, re.I)`. -/
structure FtdiMatch where
  vidHex : String
  pidHex : String
  /-- group 4 -/
  serial : Option String := none
deriving DecidableEq, Repr

def ftdiMatchAt (cs : List Char) : Option FtdiMatch :=
  match matchLitCI ['V', 'I', 'D', '_'] cs with
  | none => none
  | some rest =>
    match takeHexDigits 4 rest with
    | none => none
    | some (vid, rest1) =>
      match matchLitCI ['+', 'P', 'I', 'D', '_'] rest1 with
      | none => none
      | some rest2 =>
        match takeHexDigits 4 rest2 with
        | none => none
        | some (pid, rest3) =>
          let serial :=
            match rest3 with
            | '+' :: r =>
              let w := r.takeWhile wordChar
              if w = [] then none else some (String.mk w)
            | _ => none
          some { vidHex := vid, pidHex := pid, serial := serial }

def findFtdiMatch : List Char → Option FtdiMatch
  | [] => none
  | c :: rest =>
    match ftdiMatchAt (c :: rest) with
    | some m => some m
    | none => findFtdiMatch rest

/-- Python truthiness of an optional string (`None` and `''` are falsy):
the `'' if not last_serial_number else last_serial_number` idiom. -/
def truthyOrEmpty : Option String → String
  | none => ""
  | some s => s

/-- Python truthiness of an optional int (`None` and `0` are falsy). -/
def optTruthy : Option Nat → Bool
  | none => false
  | some n => n ≠ 0

/-! ## `#USBMI(n)` and interface-number regexes -/

/-- `re.fullmatch(r'.*?#USBMI\((\d+)\)', p, re.IGNORECASE)`: the string ends
with `#USBMI(<digits>)`, the lazy prefix is newline-free, and the group is
the (nonempty) digit run; the lazy prefix takes the earliest split that
makes the remainder match exactly to the end. -/
def usbmiMatchAt (cs : List Char) : Option Nat :=
  match matchLitCI ['#', 'U', 'S', 'B', 'M', 'I', '('] cs with
  | none => none
  | some rest =>
    let ds := rest.takeWhile Char.isDigit
    if ds = [] then none
    else
      match rest.drop ds.length with
      | [')'] =>
        match pyIntDec (String.mk ds) with
        | some n => some n
        | none => none
      | _ => none

def fullmatchUSBMI : List Char → Option Nat
  | [] => none
  | c :: rest =>
    if c = '\n' then none
    else
      match usbmiMatchAt (c :: rest) with
      | some n => some n
      | none => fullmatchUSBMI rest

/-- The `for p in location_paths` loop (lines 775-780): the first path with a
`#USBMI(<n>)` match yields the interface number. -/
def findUsbmiIface : List String → Option Nat
  | [] => none
  | p :: ps =>
    match fullmatchUSBMI p.toList with
    | some n => some n
    | none => findUsbmiIface ps

/-- `re.fullmatch(r'USB\\VID_[0-9a-f]{4}&PID_[0-9a-f]{4}&MI_(\d{2})\\.*?', hardware_id, re.IGNORECASE)`:
the lazy tail must still consume the whole remainder, so the remainder must
be newline-free. -/
def usbFullmatchMi (cs : List Char) : Option Nat :=
  match matchLitCI ['U', 'S', 'B', '\\', 'V', 'I', 'D', '_'] cs with
  | none => none
  | some r1 =>
    match takeHexDigits 4 r1 with
    | none => none
    | some (_, r2) =>
      match matchLitCI ['&', 'P', 'I', 'D', '_'] r2 with
      | none => none
      | some r3 =>
        match takeHexDigits 4 r3 with
        | none => none
        | some (_, r4) =>
          match matchLitCI ['&', 'M', 'I', '_'] r4 with
          | none => none
          | some r5 =>
            match takeDecDigits 2 r5 with
            | none => none
            | some (mi, r6) =>
              match r6 with
              | '\\' :: tail =>
                if tail.all (· ≠ '\n') then pyIntDec mi else none
              | _ => none

/-- `re.fullmatch(r'FTDIBUS\\VID_[0-9a-f]{4}\+PID_[0-9a-f]{4}\+.*?\\([0-9a-f]*?)', ...)`:
after the second `+`, the engine picks the earliest backslash whose newline-free
prefix leaves an all-hex tail; that tail is group 1. -/
def ftdiSerialSplit : List Char → Option String
  | [] => none
  | '\\' :: tail =>
    if tail.all isHexDigitChar then some (String.mk tail)
    else ftdiSerialSplit tail
  | '\n' :: _ => none
  | _ :: rest => ftdiSerialSplit rest

/-- The whole FTDIBUS fullmatch; `some g` is the (possibly empty) trailing
hex group, `none` means the pattern does not match at all. -/
def ftdiFullmatchIface (cs : List Char) : Option String :=
  match matchLitCI ['F', 'T', 'D', 'I', 'B', 'U', 'S', '\\', 'V', 'I', 'D', '_'] cs with
  | none => none
  | some r1 =>
    match takeHexDigits 4 r1 with
    | none => none
    | some (_, r2) =>
      match matchLitCI ['+', 'P', 'I', 'D', '_'] r2 with
      | none => none
      | some r3 =>
        match takeHexDigits 4 r3 with
        | none => none
        | some (_, r4) =>
          match r4 with
          | '+' :: rest => ftdiSerialSplit rest
          | _ => none

/-- `parse_interface_number_from_hardware_id` (lines 676-686).  The FTDIBUS
branch applies base-10 `int()` to a hex group, so a hex-letter or empty group
raises `ValueError`. -/
def parse_interface_number_from_hardware_id (hardware_id : String) : Except PyErr (Option Nat) :=
  match usbFullmatchMi hardware_id.toList with
  | some n => .ok (some n)
  | none =>
    match ftdiFullmatchIface hardware_id.toList with
    | some g =>
      match pyIntDec g with
      | some n => .ok (some n)
      | none => .error .valueError
    | none => .ok none

/-! ## `get_device_property` (lines 605-635) -/

def get_device_property (env : Env) (instance_number : Nat) (property_key : PropKey) :
    Except PyErr (Option DevProp) :=
  let r := env.prop instance_number property_key
  if r.ret1 ≠ CR_BUFFER_SMALL ∧ r.ret1 ≠ CR_SUCCESS then .ok none
  else if r.ret2 ≠ CR_SUCCESS then .ok none
  else if r.propType = DEVPROP_TYPE_STRING then .ok (some (.strVal r.asString))
  else if r.propType = DEVPROP_TYPE_UINT32 then .ok (some (.uint32Val r.asUint32))
  else if r.propType = DEVPROP_TYPE_STRING_LIST then .ok (some (.strListVal r.asStringList))
  else .error (.notImplemented r.propType)

/-! ## `get_location_string` (lines 579-602) -/

/-- One token found by `re.finditer(r'USBROOT\((\w+)\)|#USB\((\w+)\)', ...)`. -/
inductive LocTok where
  /-- group 1 of a `USBROOT(<w>)` match -/
  | root (w : String)
  /-- group 2 of a `#USB(<w>)` match -/
  | usb (w : String)
deriving DecidableEq, Repr

/-- Try `USBROOT\((\w+)\)` then `#USB\((\w+)\)` at the current position;
returns the token and the number of characters consumed. -/
def locTokAt (cs : List Char) : Option (LocTok × Nat) :=
  match matchLitCI ['U', 'S', 'B', 'R', 'O', 'O', 'T', '('] cs with
  | some r =>
    let w := r.takeWhile wordChar
    if w = [] then none
    else
      match r.drop w.length with
      | ')' :: _ => some (.root (String.mk w), 8 + w.length + 1)
      | _ => none
  | none =>
    match matchLitCI ['#', 'U', 'S', 'B', '('] cs with
    | some r =>
      let w := r.takeWhile wordChar
      if w = [] then none
      else
        match r.drop w.length with
        | ')' :: _ => some (.usb (String.mk w), 5 + w.length + 1)
        | _ => none
    | none => none

/-- `re.finditer`: scan left to right for non-overlapping matches.  The
`gas` argument only makes the recursion structural: every step consumes at
least one character, so `gas = cs.length` (as supplied by `locTokens`)
never runs out. -/
def locTokensGo : Nat → List Char → List LocTok
  | 0, _ => []
  | _ + 1, [] => []
  | gas + 1, c :: rest =>
    match locTokAt (c :: rest) with
    | some (t, k) => t :: locTokensGo gas ((c :: rest).drop (max k 1))
    | none => locTokensGo gas rest

def locTokens (cs : List Char) : List LocTok := locTokensGo cs.length cs

/-- The loop body of `get_location_string`: append the rendering of one
token to the accumulated `location` list.  A non-digit `USBROOT` group makes
`int()` raise `ValueError`. -/
def locAppend (location : List String) : LocTok → Except PyErr (List String)
  | .root w =>
    match pyIntDec w with
    | some n => .ok (location ++ [toString (n + 1)])
    | none => .error .valueError
  | .usb w =>
    .ok (location ++ [if location.length > 1 then "." else "-", w])

def buildLoc (location : List String) : List LocTok → Except PyErr (List String)
  | [] => .ok location
  | t :: ts =>
    match locAppend location t with
    | .error e => .error e
    | .ok location2 => buildLoc location2 ts

/-- `loc_path_str` truthiness and the `loc_path_str[0]` subscript: a list
yields its first element, a string its first character, a (truthy) int
raises `TypeError`. -/
def locFirstItem : Option DevProp → Except PyErr (Option String)
  | none => .ok none
  | some (.strListVal []) => .ok none
  | some (.strListVal (p :: _)) => .ok (some p)
  | some (.strVal s) =>
    match s.toList with
    | [] => .ok none
    | c :: _ => .ok (some (String.singleton c))
  | some (.uint32Val n) => if n = 0 then .ok none else .error .typeError

def get_location_string (env : Env) (instance_number : Nat)
    (bConfigurationValue : Option Nat := none) (bInterfaceNumber : Option Nat := none) :
    Except PyErr (Option String) :=
  -- `bConfigurationValue = 'x'` when it is None but an interface number is given
  let cfgRender : String :=
    match bConfigurationValue with
    | some n => toString n
    | none => "x"
  match get_device_property env instance_number .locationPaths with
  | .error e => .error e
  | .ok loc_path_prop =>
    match locFirstItem loc_path_prop with
    | .error e => .error e
    | .ok none => .ok none
    | .ok (some p) =>
      match buildLoc [] (locTokens p.toList) with
      | .error e => .error e
      | .ok location0 =>
        let location :=
          match bInterfaceNumber with
          | some i => location0 ++ [":" ++ cfgRender ++ "." ++ toString i]
          | none => location0
        if location ≠ [] then .ok (some (String.join location)) else .ok none

/-! ## `get_parent_serial_number` (lines 289-372) -/

/-- The body of `get_parent_serial_number`, made structurally recursive on
`gas`.  The entry point maintains `gas = MAX_DEPTH + 2 - depth`, so `gas`
can only reach 0 when `depth > MAX_DEPTH` already holds — and the `gas = 0`
result is exactly what the depth guard would return, so the two functions
agree at every `depth`. -/
def gpsnGo (env : Env) (child_devinst : Nat) (child_vid child_pid : Option Nat)
    (depth : Nat) (last_serial_number : Option String) :
    Nat → Except PyErr String
  | 0 => .ok (truthyOrEmpty last_serial_number)
  | gas + 1 =>
  if depth > MAX_USB_DEVICE_TREE_TRAVERSAL_DEPTH then
    .ok (truthyOrEmpty last_serial_number)
  else
    match env.cmGetParent child_devinst with
    | .err ret =>
      let win_error := env.mapCrToWin32 ret
      if win_error = ERROR_NOT_FOUND then .ok (truthyOrEmpty last_serial_number)
      else .error (.winError win_error)
    | .ok devinst =>
      match env.cmGetDeviceId devinst with
      | .err ret => .error (.winError (env.mapCrToWin32 ret))
      | .ok parentHardwareID_str =>
        match findVidMatch parentHardwareID_str.toList with
        | none => .ok (truthyOrEmpty last_serial_number)
        | some m =>
          -- `if m.group(k): ...` — empty groups stay None
          let vid : Option Nat := if m.vidHex ≠ "" then some (hexToNat m.vidHex) else none
          let pid : Option Nat :=
            match m.pidHex with
            | some p => if p ≠ "" then some (hexToNat p) else none
            | none => none
          let serial_number : Option String :=
            match m.serial with
            | some s => if s ≠ "" then some s else none
            | none => none
          let found_serial_number := serial_number
          let serial_number : Option String :=
            match serial_number with
            | some s => if ¬ isWordStr s then none else some s
            | none => none
          if ¬ optTruthy vid ∨ ¬ optTruthy pid then
            gpsnGo env devinst child_vid child_pid (depth + 1) found_serial_number gas
          else if pid ≠ child_pid ∨ vid ≠ child_vid then
            .ok (truthyOrEmpty last_serial_number)
          else
            match serial_number with
            | none =>
              gpsnGo env devinst child_vid child_pid (depth + 1) found_serial_number gas
            | some s => .ok s

def get_parent_serial_number (env : Env) (child_devinst : Nat)
    (child_vid child_pid : Option Nat) (depth : Nat := 0)
    (last_serial_number : Option String := none) : Except PyErr String :=
  gpsnGo env child_devinst child_vid child_pid depth last_serial_number
    (MAX_USB_DEVICE_TREE_TRAVERSAL_DEPTH + 2 - depth)

/-! ## Parent lookups and the hub-discovery loop -/

def get_device_instance_identifier (env : Env) (instance_number : Nat) : Option String :=
  match env.cmGetDeviceId instance_number with
  | .ok s => some s
  | .err _ => none

def get_parent_device_instance_number (env : Env) (child_instance_number : Nat) : Option Nat :=
  if env.nodeStatusOk child_instance_number then
    match env.cmGetParent child_instance_number with
    | .ok p => some p
    | .err _ => none
  else none

/-- The `for _ in range(max(MAX_USB_DEVICE_TREE_TRAVERSAL_DEPTH, 1))` loop at
the head of `get_usb_info_from_iocontrol` (lines 700-712); `some (parent,
child)` is the `break` case, `none` covers both the missing-parent early
return and the `for`-`else` exhaustion. -/
def findHubLoop (env : Env) (hub_instance_numbers : List Nat) :
    Nat → Nat → Option (Nat × Nat)
  | _, 0 => none
  | child_instance_number, k + 1 =>
    match get_parent_device_instance_number env child_instance_number with
    | none => none
    | some parent_instance_number =>
      if parent_instance_number ∈ hub_instance_numbers then
        some (parent_instance_number, child_instance_number)
      else findHubLoop env hub_instance_numbers parent_instance_number k

/-! ## Descriptor requests (lines 375-553)

Request buffers returned by `DeviceIoControl` are byte lists; the ctypes
casts become explicit little-endian field decoding.  `byteAt` mirrors a read
of one byte of the returned buffer (past the `USB_DESCRIPTOR_REQUEST`
header). -/

def byteAt (buf : List Nat) (i : Nat) : Nat := (buf.getD i 0) % 256

def word16At (buf : List Nat) (i : Nat) : Nat := byteAt buf i + 256 * byteAt buf (i + 1)

def decodeDeviceDescriptor (buf : List Nat) : USB_DEVICE_DESCRIPTOR where
  bLength := byteAt buf 0
  bDescriptorType := byteAt buf 1
  bcdUSB := word16At buf 2
  bDeviceClass := byteAt buf 4
  bDeviceSubClass := byteAt buf 5
  bDeviceProtocol := byteAt buf 6
  bMaxPacketSize0 := byteAt buf 7
  idVendor := word16At buf 8
  idProduct := word16At buf 10
  bcdDevice := word16At buf 12
  iManufacturer := byteAt buf 14
  iProduct := byteAt buf 15
  iSerialNumber := byteAt buf 16
  bNumConfigurations := byteAt buf 17

def decodeConfigurationDescriptor (buf : List Nat) : USB_CONFIGURATION_DESCRIPTOR where
  bLength := byteAt buf 0
  bDescriptorType := byteAt buf 1
  wTotalLength := word16At buf 2
  bNumInterfaces := byteAt buf 4
  bConfigurationValue := byteAt buf 5
  iConfiguration := byteAt buf 6
  bmAttributes := byteAt buf 7
  MaxPower := byteAt buf 8

def decodeInterfaceDescriptor (buf : List Nat) (off : Nat) : USB_INTERFACE_DESCRIPTOR where
  bLength := byteAt buf off
  bDescriptorType := byteAt buf (off + 1)
  bInterfaceNumber := byteAt buf (off + 2)
  bAlternateSetting := byteAt buf (off + 3)
  bNumEndpoints := byteAt buf (off + 4)
  bInterfaceClass := byteAt buf (off + 5)
  bInterfaceSubClass := byteAt buf (off + 6)
  bInterfaceProtocol := byteAt buf (off + 7)
  iInterface := byteAt buf (off + 8)

/-- `request_usb_string_description` (lines 375-404).  Index 0 returns
`None` before any request buffer is even built; the result of
`ctypes.wstring_at(bString, bLength // 2 - 1)` (where a negative size, i.e.
`bLength < 2`, reads up to the first NUL). -/
def request_usb_string_description (env : Env) (h_hub_device usb_hub_port idx : Nat) :
    Option String :=
  if idx = 0 then none
  else
    match env.ioStringDesc h_hub_device usb_hub_port idx with
    | none => none
    | some description =>
      let s0 := description.bString.takeWhile (· ≠ '\x00')
      some (if description.bLength / 2 = 0 then String.mk s0
            else String.mk (s0.take (description.bLength / 2 - 1)))

/-- `request_usb_configuration_description` (lines 407-442): one 9-byte
configuration-descriptor header request. -/
def request_usb_configuration_description (env : Env) (h_hub_device usb_hub_port : Nat)
    (idx : Int) : Option USB_CONFIGURATION_DESCRIPTOR :=
  match env.ioConfigDesc h_hub_device usb_hub_port idx with
  | none => none
  | some buf => some (decodeConfigurationDescriptor buf)

/-- `request_usb_device_description` (lines 504-536). -/
def request_usb_device_description (env : Env) (h_hub_device usb_hub_port : Nat) :
    Option USB_DEVICE_DESCRIPTOR :=
  match env.ioDeviceDesc h_hub_device usb_hub_port with
  | none => none
  | some buf => some (decodeDeviceDescriptor buf)

/-- `request_usb_connection_info` (lines 539-553). -/
def request_usb_connection_info (env : Env) (h_hub_device usb_hub_port : Nat) :
    Option USB_NODE_CONNECTION_INFORMATION_EX :=
  env.ioConnectionInfo h_hub_device usb_hub_port

/-- The `while True` walk over the configuration trailer (lines 475-501),
with explicit fuel: `none` means the loop has not terminated within `fuel`
iterations (the loop body only advances `common_description_offset` by
`bLength`).  `2` is `sizeof(USB_COMMON_DESCRIPTOR)` and `9` is
`sizeof(USB_INTERFACE_DESCRIPTOR)`. -/
def interfaceWalk (buf : List Nat) (wTotalLength bInterfaceNumber : Nat) :
    Nat → Nat → List USB_INTERFACE_DESCRIPTOR → Option (List USB_INTERFACE_DESCRIPTOR)
  | 0, _, _ => none
  | fuel + 1, common_description_offset, result_descriptions =>
    if common_description_offset + 2 < wTotalLength then
      let bLength := byteAt buf common_description_offset
      let bDescriptorType := byteAt buf (common_description_offset + 1)
      if common_description_offset + bLength ≤ wTotalLength then
        if bDescriptorType = USB_INTERFACE_DESCRIPTOR_TYPE then
          if bLength = 9 then
            let interface_description := decodeInterfaceDescriptor buf common_description_offset
            let result_descriptions :=
              if interface_description.bInterfaceNumber = bInterfaceNumber then
                result_descriptions ++ [interface_description]
              else result_descriptions
            interfaceWalk buf wTotalLength bInterfaceNumber fuel
              (common_description_offset + bLength) result_descriptions
          else some result_descriptions
        else
          interfaceWalk buf wTotalLength bInterfaceNumber fuel
            (common_description_offset + bLength) result_descriptions
      else some result_descriptions
    else some result_descriptions

/-- `request_usb_interface_descriptions` (lines 445-501).  Outer `none`:
the walk ran out of fuel (models nontermination of the source loop); `some
none`: the ioctl failed and the Python function returns `None`; `some (some
ds)`: the filtered interface descriptors. -/
def request_usb_interface_descriptions (env : Env) (fuel : Nat)
    (h_hub_device usb_hub_port : Nat) (configuration_description : USB_CONFIGURATION_DESCRIPTOR)
    (bInterfaceNumber : Nat) : Option (Option (List USB_INTERFACE_DESCRIPTOR)) :=
  match env.ioFullConfig h_hub_device usb_hub_port
      ((configuration_description.bConfigurationValue : Int) - 1)
      configuration_description.wTotalLength with
  | none => some none
  | some buf =>
    match interfaceWalk buf configuration_description.wTotalLength bInterfaceNumber fuel 0 [] with
    | none => none
    | some ds => some (some ds)

/-- The fall-through after the alternate-setting loop in
`get_interface_string_from_interface_descriptions`: `if
interface_descriptions:` picks the first one, else the function returns
`None` (also when the walk's result was Python `None`). -/
def ifaceStringFallback (env : Env) (h_hub_device usb_hub_port : Nat) :
    Option (List USB_INTERFACE_DESCRIPTOR) → Option String
  | some (d :: _) => request_usb_string_description env h_hub_device usb_hub_port d.iInterface
  | _ => none

/-- `get_interface_string_from_interface_descriptions` (lines 657-673).
Outer `none`: the descriptor walk did not terminate.  Iterating a Python
`None` result with a known alternate setting raises `TypeError`. -/
def get_interface_string_from_interface_descriptions (env : Env) (fuel : Nat)
    (h_hub_device usb_hub_port : Nat) (configuration_description : USB_CONFIGURATION_DESCRIPTOR)
    (bInterfaceNumber : Option Nat := none) (bAlternateSetting : Option Nat := none) :
    Option (Except PyErr (Option String)) :=
  let bIN : Nat :=
    match bInterfaceNumber with
    | none => 0          -- single-interface usb device
    | some n => n
  match request_usb_interface_descriptions env fuel h_hub_device usb_hub_port
      configuration_description bIN with
  | none => none
  | some interface_descriptions =>
    match bAlternateSetting with
    | some alt =>
      match interface_descriptions with
      | none => some (.error .typeError)
      | some ds =>
        match ds.find? (fun d => d.bAlternateSetting == alt) with
        | some d =>
          some (.ok (request_usb_string_description env h_hub_device usb_hub_port d.iInterface))
        | none => some (.ok (ifaceStringFallback env h_hub_device usb_hub_port interface_descriptions))
    | none => some (.ok (ifaceStringFallback env h_hub_device usb_hub_port interface_descriptions))

/-! ## `get_usb_info_from_iocontrol` (lines 689-826)

The outcome records the returned boolean (or the escaped exception), the
final state of the `info` record, how many times `CloseHandle` ran on the
hub handle, and whether `CreateFileW` ever produced a valid hub handle. -/

inductive IoOutcome where
  /-- the function returned `value` normally -/
  | ret (value : Bool) (info : Info) (closeCalls : Nat) (openedHub : Bool)
  /-- an exception propagated out of the function -/
  | raised (e : PyErr) (info : Info) (closeCalls : Nat) (openedHub : Bool)
  /-- the interface-descriptor walk exhausted its fuel (models nontermination) -/
  | hang
deriving DecidableEq, Repr

def IoOutcome.closeCallCount : IoOutcome → Option Nat
  | .ret _ _ c _ => some c
  | .raised _ _ c _ => some c
  | .hang => none

def IoOutcome.isRaised : IoOutcome → Bool
  | .raised _ _ _ _ => true
  | _ => false

def IoOutcome.hubOpened : IoOutcome → Option Bool
  | .ret _ _ _ o => some o
  | .raised _ _ _ o => some o
  | .hang => none

/-- Lines 770-783: determine `bInterfaceNumber` from the location paths (or,
when the property is absent, from the hardware-ID string).  Iterating a
`uint32` property value raises `TypeError`; iterating a plain string
iterates its characters. -/
def getBInterfaceNumber (env : Env) (devinst : Nat) (hardware_id : String) :
    Except PyErr (Option Nat) :=
  match get_device_property env devinst .locationPaths with
  | .error e => .error e
  | .ok (some location_paths) =>
    match location_paths with
    | .uint32Val _ => .error .typeError
    | .strVal s => .ok (findUsbmiIface (s.toList.map String.singleton))
    | .strListVal l => .ok (findUsbmiIface l)
  | .ok none => parse_interface_number_from_hardware_id hardware_id

/-- Result of the interface-description block (lines 786-811): the value to
store into `info.interface` plus the (possibly reset) `bInterfaceNumber`. -/
inductive IfaceRead where
  | hangR
  | raisedR (e : PyErr)
  | okR (ifaceVal : Option DevProp) (bInterfaceNumber : Option Nat)
deriving DecidableEq, Repr

def readInterfaceField (env : Env) (fuel devinst h_hub_device usb_hub_port : Nat)
    (bConfigurationValue bInterfaceNumber : Option Nat) : IfaceRead :=
  match bConfigurationValue with
  | some cfgv =>
    match request_usb_configuration_description env h_hub_device usb_hub_port
        ((cfgv : Int) - 1) with
    | none =>
      -- Somehow getting the usb configuration description fails.
      match get_device_property env devinst .busReportedDeviceDesc with
      | .error e => .raisedR e
      | .ok v => .okR v bInterfaceNumber
    | some configuration_description =>
      if configuration_description.bNumInterfaces = 1 then
        -- Usb device with single interface: bInterfaceNumber set to None
        match get_interface_string_from_interface_descriptions env fuel h_hub_device
            usb_hub_port configuration_description none none with
        | none => .hangR
        | some (.error e) => .raisedR e
        | some (.ok s) => .okR (s.map DevProp.strVal) none
      else
        match bInterfaceNumber with
        | some n =>
          match get_interface_string_from_interface_descriptions env fuel h_hub_device
              usb_hub_port configuration_description (some n) none with
          | none => .hangR
          | some (.error e) => .raisedR e
          | some (.ok s) => .okR (s.map DevProp.strVal) bInterfaceNumber
        | none =>
          match get_device_property env devinst .busReportedDeviceDesc with
          | .error e => .raisedR e
          | .ok v => .okR v bInterfaceNumber
  | none =>
    match get_device_property env devinst .busReportedDeviceDesc with
    | .error e => .raisedR e
    | .ok v => .okR v bInterfaceNumber

/-- Lines 752-826: everything after a device descriptor has been obtained.
The hub handle is open (`openedHub = true`) throughout; the only
`CloseHandle` on this region is the one before `return True`. -/
def usbInfoMain (env : Env) (fuel devinst : Nat) (hardware_id : String)
    (child_instance_number h_hub_device usb_hub_port : Nat)
    (connection_info : Option USB_NODE_CONNECTION_INFORMATION_EX)
    (device_description : USB_DEVICE_DESCRIPTOR) (info : Info) : IoOutcome :=
  let info := { info with
    pid := some device_description.idProduct,
    vid := some device_description.idVendor,
    product := request_usb_string_description env h_hub_device usb_hub_port
      device_description.iProduct,
    manufacturer := request_usb_string_description env h_hub_device usb_hub_port
      device_description.iManufacturer,
    serial_number := request_usb_string_description env h_hub_device usb_hub_port
      device_description.iSerialNumber }
  let bConfigurationValue : Option Nat :=
    match connection_info with
    | some ci => some ci.CurrentConfigurationValue
    | none =>
      if device_description.bNumConfigurations = 1 then some 1 else none
  match getBInterfaceNumber env devinst hardware_id with
  | .error e => .raised e info 0 true
  | .ok bInterfaceNumber =>
    match readInterfaceField env fuel devinst h_hub_device usb_hub_port
        bConfigurationValue bInterfaceNumber with
    | .hangR => .hang
    | .raisedR e => .raised e info 0 true
    | .okR ifaceVal bInterfaceNumber2 =>
      let info := { info with interface := ifaceVal }
      match get_device_property env devinst .friendlyName with
      | .error e => .raised e info 0 true
      | .ok nameVal =>
        let info := { info with name := nameVal }
        match get_location_string env child_instance_number bConfigurationValue
            bInterfaceNumber2 with
        | .error e => .raised e info 0 true
        | .ok loc =>
          let info := { info with location := loc }
          let info := env.applyUsbInfo info
          .ret true info 1 true

def get_usb_info_from_iocontrol (env : Env) (fuel devinst : Nat) (hardware_id : String)
    (hub_instance_numbers : List Nat) (info : Info) : IoOutcome :=
  match findHubLoop env hub_instance_numbers devinst
      (max MAX_USB_DEVICE_TREE_TRAVERSAL_DEPTH 1) with
  | none => .ret false info 0 false
  | some (parent_instance_number, child_instance_number) =>
    match get_device_property env child_instance_number .address with
    | .error e => .raised e info 0 false
    | .ok none => .ret false info 0 false
    | .ok (some usb_hub_port) =>
      match get_device_instance_identifier env parent_instance_number with
      | none => .ret false info 0 false
      | some parent_instance_id =>
        let hub_location :=
          "\\\\?\\" ++ (parent_instance_id.replace "\\" "#") ++ "#" ++ guidDevinterfaceUsbHubStr
        let h_hub_device := env.createFile hub_location
        if h_hub_device = INVALID_HANDLE_VALUE then .ret false info 0 false
        else
          match usb_hub_port with
          | .strVal _ =>
            -- a non-integer Device_Address raises TypeError at the first
            -- `ConnectionIndex = usb_hub_port` struct assignment
            .raised .typeError info 0 true
          | .strListVal _ => .raised .typeError info 0 true
          | .uint32Val usb_hub_port =>
            match request_usb_connection_info env h_hub_device usb_hub_port with
            | none =>
              match request_usb_device_description env h_hub_device usb_hub_port with
              | none =>
                -- We can't get any information: CloseHandle; return False
                .ret false info 1 true
              | some device_description =>
                usbInfoMain env fuel devinst hardware_id child_instance_number
                  h_hub_device usb_hub_port none device_description info
            | some connection_info =>
              usbInfoMain env fuel devinst hardware_id child_instance_number
                h_hub_device usb_hub_port (some connection_info)
                connection_info.DeviceDescriptor info

/-! ## `get_usb_info_from_device_property` (lines 829-899) -/

/-- The `USB...` / `FTDIBUS...` hardware-ID branch (lines 832-862);
`get_parent_serial_number` may raise, hence `Except`. -/
def hwidBranch (env : Env) (devinst : Nat) (szHardwareID_str : String) (info : Info) :
    Except PyErr Info :=
  if szHardwareID_str.startsWith "USB" then
    match findVidMatch szHardwareID_str.toList with
    | some m =>
      let info := { info with vid := some (hexToNat m.vidHex) }
      let info :=
        match m.pidHex with
        | some p => if p ≠ "" then { info with pid := some (hexToNat p) } else info
        | none => info
      let bInterfaceNumber : Option Nat :=
        match m.miDigits with
        | some d => if d ≠ "" then pyIntDec d else none
        | none => none
      let serialStep : Except PyErr Info :=
        match m.serial with
        | some s =>
          if s ≠ "" ∧ isWordStr s then .ok { info with serial_number := some s }
          else
            match get_parent_serial_number env devinst info.vid info.pid 0 none with
            | .error e => .error e
            | .ok sn => .ok { info with serial_number := some sn }
        | none =>
          match get_parent_serial_number env devinst info.vid info.pid 0 none with
          | .error e => .error e
          | .ok sn => .ok { info with serial_number := some sn }
      match serialStep with
      | .error e => .error e
      | .ok info =>
        match get_location_string env devinst none bInterfaceNumber with
        | .error e => .error e
        | .ok loc =>
          let info := { info with location := loc }
          .ok { info with hwid := some (env.usbInfoStr info) }
    | none =>
      -- no VID match: only the location/hwid lines after the `if m:` run
      match get_location_string env devinst none none with
      | .error e => .error e
      | .ok loc =>
        let info := { info with location := loc }
        .ok { info with hwid := some (env.usbInfoStr info) }
  else if szHardwareID_str.startsWith "FTDIBUS" then
    match findFtdiMatch szHardwareID_str.toList with
    | some m =>
      let info := { info with
        vid := some (hexToNat m.vidHex),
        pid := some (hexToNat m.pidHex) }
      let info :=
        match m.serial with
        | some s => { info with serial_number := some s }
        | none => info
      .ok { info with hwid := some (env.usbInfoStr info) }
    | none => .ok { info with hwid := some (env.usbInfoStr info) }
  else
    .ok { info with hwid := some szHardwareID_str }

def get_usb_info_from_device_property (env : Env) (g_hdi devinst : Nat)
    (szHardwareID_str : String) (info : Info) : Except PyErr Info :=
  match hwidBranch env devinst szHardwareID_str info with
  | .error e => .error e
  | .ok info =>
    let info :=
      match env.regManufacturer devinst with
      | some s => { info with manufacturer := some s }
      | none => info
    let info :=
      match env.regFriendlyName devinst with
      | some s => { info with description := some s }
      | none => info
    let info :=
      match env.setupDiBusReportedDesc devinst with
      | some s => { info with interface := some (.strVal s) }
      | none => info
    .ok info

/-! ## `iterate_comports` / `comports` (lines 902-1016) -/

/-- `get_all_hub_instance_number` (lines 638-654): the `SetupDiGetClassDevs`
+ `SetupDiEnumDeviceInfo` loop, abstracted to the oracle's list of hub
instance numbers. -/
def get_all_hub_instance_number (env : Env) : List Nat :=
  env.hubDevInsts

/-- Lines 967-990: the hardware-ID string for one device, with the
instance-identifier read, the registry fallback, and the
`ERROR_INSUFFICIENT_BUFFER`-tolerant error path (the fresh buffer decodes as
the empty string when both reads fail benignly). -/
def deviceHwid (env : Env) (d : Nat) : Except PyErr String :=
  match env.instanceIdOf d with
  | some s => .ok s
  | none =>
    match env.regHardwareId d with
    | some s => .ok s
    | none =>
      if env.lastErr d ≠ ERROR_INSUFFICIENT_BUFFER then .error (.winError (env.lastErr d))
      else .ok ""

/-- One iteration of the device loop (lines 939-1010): `some (.ok none)` is
the parallel-port `continue`; outer `none` means the per-device resolution
hung in the interface-descriptor walk. -/
def processDevice (env : Env) (fuel : Nat) (hub_instance_numbers : List Nat)
    (enable_iocontrol : Bool) (g_hdi d : Nat) : Option (Except PyErr (Option Info)) :=
  let port_name := env.regPortName d
  if port_name.startsWith "LPT" then some (.ok none)
  else
    match deviceHwid env d with
    | .error e => some (.error e)
    | .ok szHardwareID_str =>
      let info := ListPortInfo.init port_name
      if enable_iocontrol then
        match get_usb_info_from_iocontrol env fuel d szHardwareID_str
            hub_instance_numbers info with
        | .hang => none
        | .raised e _ _ _ => some (.error e)
        | .ret true info2 _ _ => some (.ok (some info2))
        | .ret false info2 _ _ =>
          match get_usb_info_from_device_property env g_hdi d szHardwareID_str info2 with
          | .error e => some (.error e)
          | .ok info3 => some (.ok (some info3))
      else
        match get_usb_info_from_device_property env g_hdi d szHardwareID_str info with
        | .error e => some (.error e)
        | .ok info3 => some (.ok (some info3))

/-- The `while SetupDiEnumDeviceInfo` device loop for one class GUID. -/
def devLoop (env : Env) (fuel : Nat) (hub_instance_numbers : List Nat)
    (enable_iocontrol : Bool) (g_hdi : Nat) :
    List Nat → Option (Except PyErr (List Info))
  | [] => some (.ok [])
  | d :: ds =>
    match processDevice env fuel hub_instance_numbers enable_iocontrol g_hdi d with
    | none => none
    | some (.error e) => some (.error e)
    | some (.ok none) => devLoop env fuel hub_instance_numbers enable_iocontrol g_hdi ds
    | some (.ok (some i)) =>
      match devLoop env fuel hub_instance_numbers enable_iocontrol g_hdi ds with
      | none => none
      | some (.error e) => some (.error e)
      | some (.ok rest) => some (.ok (i :: rest))

/-- The `for index in range(len(GUIDs))` loop. -/
def guidLoop (env : Env) (fuel : Nat) (hub_instance_numbers : List Nat)
    (enable_iocontrol : Bool) : List Nat → Option (Except PyErr (List Info))
  | [] => some (.ok [])
  | g :: gs =>
    match devLoop env fuel hub_instance_numbers enable_iocontrol g (env.classDevices g) with
    | none => none
    | some (.error e) => some (.error e)
    | some (.ok here) =>
      match guidLoop env fuel hub_instance_numbers enable_iocontrol gs with
      | none => none
      | some (.error e) => some (.error e)
      | some (.ok rest) => some (.ok (here ++ rest))

/-- `iterate_comports` (lines 902-1011), fully materialized: the generator's
yielded sequence as a list (outer `none` models a hang inside one device's
descriptor walk). -/
def iterate_comports (env : Env) (fuel : Nat) (enable_iocontrol : Bool := true) :
    Option (Except PyErr (List Info)) :=
  match env.portsClassGuids with
  | none => some (.error (.winError env.setupLastError))
  | some portsGuids =>
    match env.modemClassGuids with
    | none => some (.error (.winError env.setupLastError))
    | some modemGuids =>
      let GUIDs := portsGuids ++ modemGuids
      let hub_instance_numbers :=
        if enable_iocontrol then get_all_hub_instance_number env else []
      guidLoop env fuel hub_instance_numbers enable_iocontrol GUIDs

/-- `comports` (lines 1014-1016): `include_links` is accepted and ignored;
the body is `list(iterate_comports())`. -/
def comports (env : Env) (fuel : Nat) (include_links : Bool := false) :
    Option (Except PyErr (List Info)) :=
  iterate_comports env fuel

/-! ## Abstract ancestor chains (for the serial-recovery claims)

`get_parent_serial_number` observes, per ancestor: whether a parent link
exists, whether its hardware-ID string yields a `VID_...` match, and the
(Python-truthy) parsed VID/PID/serial groups.  `chainFromEnv` extracts up to
`k` such levels from an environment; `none` means a hard OS failure (a
raising path) occurred while extracting. -/

inductive Level where
  /-- `CM_Get_Parent` failed with `ERROR_NOT_FOUND`: the child was the root -/
  | root
  /-- a parent exists but its hardware ID has no `VID_` match -/
  | noMatch
  /-- the parsed groups, after Python truthiness (`None`-or-empty collapses) -/
  | parsed (vid pid : Option Nat) (serial : Option String)
deriving DecidableEq, Repr

def levelOfMatch (m : HwMatch) : Level :=
  .parsed
    (if m.vidHex ≠ "" then some (hexToNat m.vidHex) else none)
    (match m.pidHex with
     | some p => if p ≠ "" then some (hexToNat p) else none
     | none => none)
    (match m.serial with
     | some s => if s ≠ "" then some s else none
     | none => none)

def chainFromEnv (env : Env) : Nat → Nat → Option (List Level)
  | _, 0 => some []
  | child, k + 1 =>
    match env.cmGetParent child with
    | .err ret =>
      if env.mapCrToWin32 ret = ERROR_NOT_FOUND then some [.root] else none
    | .ok p =>
      match env.cmGetDeviceId p with
      | .err _ => none
      | .ok s =>
        match findVidMatch s.toList with
        | none => some [.noMatch]
        | some m => (chainFromEnv env p k).map (levelOfMatch m :: ·)

/-- The serial-recovery policy restated in the spec's own terms (§4.3 policy
bullets) over an abstract ancestor chain, with the fallback amendment the
code forces: a walk that ends without a definitive serial returns the most
recently seen serial token (even a non-alphanumeric ephemeral one), and the
empty string only when no token was seen at the stopping point. -/
def recoverSerialSpec (child_vid child_pid : Option Nat) :
    List Level → Option String → String
  | [], best => truthyOrEmpty best
  | .root :: _, best => truthyOrEmpty best
  | .noMatch :: _, best => truthyOrEmpty best
  | .parsed vid pid serial :: rest, best =>
    if ¬ optTruthy vid ∨ ¬ optTruthy pid then
      recoverSerialSpec child_vid child_pid rest serial
    else if pid ≠ child_pid ∨ vid ≠ child_vid then
      truthyOrEmpty best
    else
      match serial with
      | some s =>
        if isWordStr s then s
        else recoverSerialSpec child_vid child_pid rest serial
      | none => recoverSerialSpec child_vid child_pid rest serial

/-- Two environments answer every OS call `get_parent_serial_number` can
make within `k` parent-link follows from `child` identically. -/
def walkAgreeB (envA envB : Env) : Nat → Nat → Bool
  | _, 0 => true
  | child, k + 1 =>
    match envA.cmGetParent child, envB.cmGetParent child with
    | .err r1, .err r2 =>
      r1 == r2 && (envA.mapCrToWin32 r1 == envB.mapCrToWin32 r1)
    | .ok p1, .ok p2 =>
      p1 == p2 &&
      (match envA.cmGetDeviceId p1, envB.cmGetDeviceId p1 with
       | .err s1, .err s2 => s1 == s2 && (envA.mapCrToWin32 s1 == envB.mapCrToWin32 s1)
       | .ok i1, .ok i2 => i1 == i2 && walkAgreeB envA envB p1 k
       | _, _ => false)
    | _, _ => false

/-- Two environments answer every OS call the hub-discovery loop can make
within `k` iterations from `child` identically. -/
def hubAgreeB (envA envB : Env) : Nat → Nat → Bool
  | _, 0 => true
  | child, k + 1 =>
    (envA.nodeStatusOk child == envB.nodeStatusOk child) &&
    (if envA.nodeStatusOk child then
      match envA.cmGetParent child, envB.cmGetParent child with
      | .err _, .err _ => true
      | .ok p1, .ok p2 => p1 == p2 && hubAgreeB envA envB p1 k
      | _, _ => false
    else true)

/-- The info record is untouched on every normal `False` return. -/
def Info.unchangedOnFalse (r : IoOutcome) (info : Info) : Prop :=
  match r with
  | .ret false i _ _ => i = info
  | _ => True

/-! ## Baseline environment for concrete witnesses -/

def baseEnv : Env where
  cmGetParent := fun _ => .err 3
  cmGetDeviceId := fun _ => .err 3
  mapCrToWin32 := fun _ => 5
  nodeStatusOk := fun _ => true
  prop := fun _ _ => { ret1 := 5, ret2 := 5, propType := 0 }
  createFile := fun _ => 0
  ioConnectionInfo := fun _ _ => none
  ioDeviceDesc := fun _ _ => none
  ioConfigDesc := fun _ _ _ => none
  ioFullConfig := fun _ _ _ _ => none
  ioStringDesc := fun _ _ _ => none

/-! ## Concrete environments used by witnesses and counterexamples -/

/-- Location-paths property holding `["USBROOT(0)#USB(3)#USB(1)"]`. -/
def envC5 : Env := { baseEnv with
  prop := fun _ k =>
    if k = .locationPaths then
      { ret1 := CR_BUFFER_SMALL, ret2 := CR_SUCCESS, propType := DEVPROP_TYPE_STRING_LIST,
        asStringList := ["USBROOT(0)#USB(3)#USB(1)"] }
    else { ret1 := 5, ret2 := 5, propType := 0 } }

/-- A two-level chain: the immediate parent matches the child's VID/PID but
carries the non-alphanumeric serial token `6&ABC`; above it is the root. -/
def envChainEphemeral : Env := { baseEnv with
  cmGetParent := fun n => if n = 0 then .ok 1 else .err 13,
  cmGetDeviceId := fun n => if n = 1 then .ok "USB\\VID_AAAA&PID_BBBB\\6&ABC" else .err 3,
  mapCrToWin32 := fun r => if r = 13 then ERROR_NOT_FOUND else 5 }

/-- A seven-level chain 0→1→…→6 whose intermediate ancestors parse with a
VID but no PID; node 6 carries a matching VID/PID and the alphanumeric
serial `SER123`. -/
def envC4A : Env := { baseEnv with
  cmGetParent := fun n => if n ≤ 5 then .ok (n + 1) else .err 13,
  cmGetDeviceId := fun n =>
    if n = 6 then .ok "USB\\VID_AAAA&PID_BBBB\\SER123"
    else if 1 ≤ n ∧ n ≤ 5 then .ok "X\\VID_1111"
    else .err 3,
  mapCrToWin32 := fun r => if r = 13 then ERROR_NOT_FOUND else 5 }

/-- Identical to `envC4A` on everything the first five parent-link follows
can observe, but node 5 is the tree root here. -/
def envC4B : Env := { baseEnv with
  cmGetParent := fun n => if n ≤ 4 then .ok (n + 1) else .err 13,
  cmGetDeviceId := fun n =>
    if n = 6 then .ok "USB\\VID_AAAA&PID_BBBB\\SER123"
    else if 1 ≤ n ∧ n ≤ 5 then .ok "X\\VID_1111"
    else .err 3,
  mapCrToWin32 := fun r => if r = 13 then ERROR_NOT_FOUND else 5 }

/-- Immediate parent parses with VID `1234` and PID `5678`, both different
from the child's. -/
def envC8 : Env := { baseEnv with
  cmGetParent := fun n => if n = 0 then .ok 1 else .err 13,
  cmGetDeviceId := fun n => if n = 1 then .ok "USB\\VID_1234&PID_5678\\ABC" else .err 3,
  mapCrToWin32 := fun r => if r = 13 then ERROR_NOT_FOUND else 5 }

/-- A configuration whose 12-byte trailer contains, at offset 9, a
zero-length descriptor header of (non-interface) type 5. -/
def cfgC2 : USB_CONFIGURATION_DESCRIPTOR where
  bLength := 9
  bDescriptorType := 2
  wTotalLength := 12
  bNumInterfaces := 1
  bConfigurationValue := 1
  iConfiguration := 0
  bmAttributes := 0
  MaxPower := 0

def bufC2 : List Nat := [9, 2, 12, 0, 1, 1, 0, 0, 0, 0, 5, 0]

def envC2 : Env := { baseEnv with ioFullConfig := fun _ _ _ _ => some bufC2 }

/-! ## The C1 failing input: an exception after the hub handle is open -/

def ddC1 : USB_DEVICE_DESCRIPTOR where
  bLength := 18
  bDescriptorType := 1
  bcdUSB := 0x0200
  bDeviceClass := 0
  bDeviceSubClass := 0
  bDeviceProtocol := 0
  bMaxPacketSize0 := 64
  idVendor := 0x303A
  idProduct := 0x4001
  bcdDevice := 0x0100
  iManufacturer := 0
  iProduct := 0
  iSerialNumber := 0
  bNumConfigurations := 1

def connC1 : USB_NODE_CONNECTION_INFORMATION_EX where
  ConnectionIndex := 3
  DeviceDescriptor := ddC1
  CurrentConfigurationValue := 1
  Speed := 2
  DeviceIsHub := 0
  DeviceAddress := 1
  NumberOfOpenPipes := 0
  ConnectionStatus := 1

/-- Device 10 hangs off hub 11; everything succeeds up to and including the
connection-info query, but the location-paths property reports the
unsupported `DEVPROPTYPE` 99, so `get_device_property` raises
`NotImplementedError` after `CreateFileW` has already produced hub handle 7. -/
def envC1 : Env := { baseEnv with
  cmGetParent := fun n => if n = 10 then .ok 11 else .err 13,
  cmGetDeviceId := fun n => if n = 11 then .ok "USB\\ROOT_HUB30\\4&1" else .err 3,
  mapCrToWin32 := fun r => if r = 13 then ERROR_NOT_FOUND else 5,
  prop := fun n k =>
    if n = 10 ∧ k = .address then
      { ret1 := CR_BUFFER_SMALL, ret2 := CR_SUCCESS, propType := DEVPROP_TYPE_UINT32,
        asUint32 := 3 }
    else if n = 10 ∧ k = .locationPaths then
      { ret1 := CR_BUFFER_SMALL, ret2 := CR_SUCCESS, propType := 99 }
    else { ret1 := 5, ret2 := 5, propType := 0 },
  createFile := fun _ => 7,
  ioConnectionInfo := fun h p => if h = 7 ∧ p = 3 then some connC1 else none }

/-! ## Claim theorems -/

/-- **C10**: `comports(include_links)` returns the fully materialized result
of `iterate_comports()` with its default `enable_iocontrol=True`; the
`include_links` argument is ignored — any two values give the same result. -/
theorem comports_ignores_include_links (env : Env) (fuel : Nat) (a b : Bool) :
    comports env fuel a = iterate_comports env fuel true ∧
    comports env fuel a = comports env fuel b :=
  ⟨rfl, rfl⟩

/-- **C7**: `get_device_property` returns a `uint32`, a string, a string
list, or absent; any failure in the two-phase size-then-fetch query yields
absent; and when both phases succeed with a property type that is not one of
the three supported raw types (hence, in particular, any type outside the
four documented ones) it raises `NotImplementedError` instead of coercing. -/
theorem get_device_property_contract (env : Env) (inst : Nat) (key : PropKey) :
    (get_device_property env inst key = .ok none ∨
     (∃ n, get_device_property env inst key = .ok (some (.uint32Val n))) ∨
     (∃ s, get_device_property env inst key = .ok (some (.strVal s))) ∨
     (∃ l, get_device_property env inst key = .ok (some (.strListVal l))) ∨
     (∃ t, get_device_property env inst key = .error (.notImplemented t))) ∧
    ((((env.prop inst key).ret1 ≠ CR_BUFFER_SMALL ∧ (env.prop inst key).ret1 ≠ CR_SUCCESS) ∨
       (env.prop inst key).ret2 ≠ CR_SUCCESS) →
      get_device_property env inst key = .ok none) ∧
    (((env.prop inst key).ret1 = CR_BUFFER_SMALL ∨ (env.prop inst key).ret1 = CR_SUCCESS) →
      (env.prop inst key).ret2 = CR_SUCCESS →
      (env.prop inst key).propType ∉
        [DEVPROP_TYPE_STRING, DEVPROP_TYPE_UINT32, DEVPROP_TYPE_STRING_LIST] →
      get_device_property env inst key =
        .error (.notImplemented (env.prop inst key).propType)) := by
  simp only [get_device_property]
  refine ⟨?_, ?_, ?_⟩
  · split_ifs <;> simp
  · intro h
    rcases h with h | h
    · rw [if_pos h]
    · split_ifs <;> simp_all
  · intro h1 h2 h3
    simp only [List.mem_cons, List.mem_singleton] at h3
    push_neg at h3
    split_ifs <;> simp_all [CR_SUCCESS]

/-- **C6**: every descriptor request returns absent (never raises) when the
underlying I/O control fails, and a string-descriptor request at index 0
returns absent without consulting the I/O oracle at all (the result is the
same under every string-descriptor oracle). -/
theorem descriptor_requests_fail_soft (env : Env) (h p idx : Nat)
    (cfg : USB_CONFIGURATION_DESCRIPTOR) (i2 : Int) (fuel : Nat)
    (f : Nat → Nat → Nat → Option USB_STRING_DESCRIPTOR) :
    request_usb_string_description env h p 0 = none ∧
    request_usb_string_description { env with ioStringDesc := f } h p 0 =
      request_usb_string_description env h p 0 ∧
    (env.ioStringDesc h p idx = none → request_usb_string_description env h p idx = none) ∧
    (env.ioDeviceDesc h p = none → request_usb_device_description env h p = none) ∧
    (env.ioConfigDesc h p i2 = none →
      request_usb_configuration_description env h p i2 = none) ∧
    (env.ioConnectionInfo h p = none → request_usb_connection_info env h p = none) ∧
    (env.ioFullConfig h p ((cfg.bConfigurationValue : Int) - 1) cfg.wTotalLength = none →
      request_usb_interface_descriptions env fuel h p cfg idx = some none) := by
  refine ⟨rfl, rfl, ?_, ?_, ?_, ?_, ?_⟩
  · intro hio
    unfold request_usb_string_description
    split_ifs with h0
    · rfl
    · rw [hio]
  · intro hio; unfold request_usb_device_description; rw [hio]
  · intro hio; unfold request_usb_configuration_description; rw [hio]
  · intro hio; unfold request_usb_connection_info; rw [hio]
  · intro hio; unfold request_usb_interface_descriptions; rw [hio]

/-- At offset 9 the bad trailer holds a zero-length header of non-interface
type, so one step of the walk returns to the very same state. -/
theorem interfaceWalk_stuck_at_9 (f : Nat) (acc : List USB_INTERFACE_DESCRIPTOR) :
    interfaceWalk bufC2 12 0 f 9 acc = none := by
  induction f generalizing acc with
  | zero => rfl
  | succ n ih =>
    have hstep : interfaceWalk bufC2 12 0 (n + 1) 9 acc = interfaceWalk bufC2 12 0 n 9 acc := by
      simp [interfaceWalk, byteAt, bufC2, USB_INTERFACE_DESCRIPTOR_TYPE]
    rw [hstep]
    exact ih acc

/-- **C2**: the configuration-trailer walk does not terminate on a trailer
containing a zero-length descriptor header of non-interface type: for every
amount of fuel, `request_usb_interface_descriptions` fails to return (the
source's `while True` loop never advances past offset 9). -/
theorem interface_walk_diverges_on_zero_length_header (fuel : Nat) :
    request_usb_interface_descriptions envC2 fuel 7 3 cfgC2 0 = none := by
  have hwalk : interfaceWalk bufC2 12 0 fuel 0 [] = none := by
    cases fuel with
    | zero => rfl
    | succ n =>
      have hstep : interfaceWalk bufC2 12 0 (n + 1) 0 [] = interfaceWalk bufC2 12 0 n 9 [] := by
        simp [interfaceWalk, byteAt, bufC2, USB_INTERFACE_DESCRIPTOR_TYPE]
      rw [hstep]
      exact interfaceWalk_stuck_at_9 n []
    
  unfold request_usb_interface_descriptions
  simp [envC2, baseEnv, cfgC2, hwalk]

/-- **C5**: on a node whose location-paths property is
`["USBROOT(0)#USB(3)#USB(1)"]`, `get_location_string` renders `"1-3.1"`
with no interface number, and `"1-3.1:x.0"` with interface number 0 and an
unknown configuration value (placeholder `x`). -/
theorem location_string_example (env : Env) (inst : Nat)
    (h : get_device_property env inst .locationPaths =
      .ok (some (.strListVal ["USBROOT(0)#USB(3)#USB(1)"]))) :
    get_location_string env inst none none = .ok (some "1-3.1") ∧
    get_location_string env inst none (some 0) = .ok (some "1-3.1:x.0") := by
  constructor <;>
    (unfold get_location_string; rw [h]; decide)

theorem location_string_example_witness :
    get_location_string envC5 5 none none = .ok (some "1-3.1") ∧
    get_location_string envC5 5 none (some 0) = .ok (some "1-3.1:x.0") :=
  location_string_example envC5 5 (by decide)

/-- **C8**: when the immediate parent's hardware ID parses with a VID and a
PID that both differ from the child's (and no fallback serial has been
seen), `get_parent_serial_number` returns the empty string and does not
raise. -/
theorem serial_recovery_stops_on_vid_pid_change (env : Env) (child p cv cp : Nat)
    (s : String) (m : HwMatch) (ph : String)
    (h1 : env.cmGetParent child = .ok p)
    (h2 : env.cmGetDeviceId p = .ok s)
    (h3 : findVidMatch s.toList = some m)
    (h4 : m.pidHex = some ph)
    (hvne : m.vidHex ≠ "")
    (hph : ph ≠ "")
    (hvz : hexToNat m.vidHex ≠ 0)
    (hpz : hexToNat ph ≠ 0)
    (hv : hexToNat m.vidHex ≠ cv)
    (hp : hexToNat ph ≠ cp) :
    get_parent_serial_number env child (some cv) (some cp) 0 none = .ok "" := by
  show gpsnGo env child (some cv) (some cp) 0 none (MAX_USB_DEVICE_TREE_TRAVERSAL_DEPTH + 2 - 0) =
    .ok ""
  show gpsnGo env child (some cv) (some cp) 0 none (6 + 1) = .ok ""
  rw [gpsnGo]
  have h3d : findVidMatch s.data = some m := h3
  simp [h1, h2, h3d, h4, hvne, hph, optTruthy, hvz, hpz, hv, hp,
    MAX_USB_DEVICE_TREE_TRAVERSAL_DEPTH, truthyOrEmpty]

theorem serial_recovery_stops_on_vid_pid_change_witness :
    get_parent_serial_number envC8 0 (some 1) (some 2) 0 none = .ok "" :=
  serial_recovery_stops_on_vid_pid_change envC8 0 1 1 2 "USB\\VID_1234&PID_5678\\ABC"
    { vidHex := "1234", pidHex := some "5678", miDigits := none, serial := some "ABC" }
    "5678" (by decide) (by decide) (by decide) (by decide) (by decide) (by decide)
    (by decide) (by decide) (by decide) (by decide)

/-- **C3** (counterexample): on a chain whose only VID/PID-matching ancestor
carries the non-alphanumeric serial token `6&ABC` and no valid serial exists
anywhere, `get_parent_serial_number` returns that ephemeral token as a
fallback — not the empty string the claim requires. -/
theorem serial_recovery_returns_ephemeral_fallback :
    get_parent_serial_number envChainEphemeral 0 (some 0xAAAA) (some 0xBBBB) 0 none =
      .ok "6&ABC" ∧
    isWordStr "6&ABC" = false ∧ ("6&ABC" : String) ≠ "" := by
  decide

/-- The recursion agrees with the spec-side chain policy: induction over the
extracted chain, with `gas = k + 1` tracking `depth + k = MAX_DEPTH + 1`. -/
theorem gpsnGo_matches_spec (env : Env) (cv cp : Option Nat) :
    ∀ (k child depth : Nat) (best : Option String) (levels : List Level),
      depth + k = MAX_USB_DEVICE_TREE_TRAVERSAL_DEPTH + 1 →
      chainFromEnv env child k = some levels →
      gpsnGo env child cv cp depth best (k + 1) =
        .ok (recoverSerialSpec cv cp levels best) := by
  intro k
  induction k with
  | zero =>
    intro child depth best levels hd hc
    simp only [chainFromEnv, Option.some.injEq] at hc
    subst hc
    rw [gpsnGo]
    have hgt : depth > MAX_USB_DEVICE_TREE_TRAVERSAL_DEPTH := by
      simp only [MAX_USB_DEVICE_TREE_TRAVERSAL_DEPTH] at hd ⊢
      omega
    rw [if_pos hgt]
    rfl
  | succ k ih =>
    intro child depth best levels hd hc
    have hdepth : ¬ depth > MAX_USB_DEVICE_TREE_TRAVERSAL_DEPTH := by
      simp only [MAX_USB_DEVICE_TREE_TRAVERSAL_DEPTH] at hd ⊢
      omega
    rw [gpsnGo, if_neg hdepth]
    rw [chainFromEnv] at hc
    cases hp : env.cmGetParent child with
    | err ret =>
      rw [hp] at hc
      dsimp only at hc ⊢
      by_cases hnf : env.mapCrToWin32 ret = ERROR_NOT_FOUND
      · rw [if_pos hnf] at hc
        injection hc with hc
        subst hc
        simp [hnf, recoverSerialSpec]
      · rw [if_neg hnf] at hc
        cases hc
    | ok p =>
      rw [hp] at hc
      dsimp only at hc ⊢
      cases hid : env.cmGetDeviceId p with
      | err ret =>
        rw [hid] at hc
        dsimp only at hc
        cases hc
      | ok s =>
        rw [hid] at hc
        dsimp only at hc ⊢
        cases hm : findVidMatch s.toList with
        | none =>
          have hmd : findVidMatch s.data = none := hm
          rw [hm] at hc
          injection hc with hc
          subst hc
          simp [hmd, recoverSerialSpec]
        | some m =>
          have hmd : findVidMatch s.data = some m := hm
          rw [hm] at hc
          cases hrest : chainFromEnv env p k with
          | none =>
            rw [hrest] at hc
            cases hc
          | some rest =>
            rw [hrest] at hc
            simp only [Option.map_some', Option.some.injEq] at hc
            subst hc
            simp only [hmd, levelOfMatch, recoverSerialSpec]
            have hrec :
                gpsnGo env p cv cp (depth + 1)
                    (match m.serial with
                     | some s => if s ≠ "" then some s else none
                     | none => none) (k + 1) =
                  .ok (recoverSerialSpec cv cp rest
                    (match m.serial with
                     | some s => if s ≠ "" then some s else none
                     | none => none)) :=
              ih p (depth + 1)
                (match m.serial with
                 | some s => if s ≠ "" then some s else none
                 | none => none) rest (by omega) hrest
            by_cases hv :
                ¬ optTruthy (if m.vidHex ≠ "" then some (hexToNat m.vidHex) else none) ∨
                ¬ optTruthy (match m.pidHex with
                             | some p => if p ≠ "" then some (hexToNat p) else none
                             | none => none)
            · rw [if_pos hv, if_pos hv, hrec]
            · rw [if_neg hv, if_neg hv]
              by_cases hne :
                  (match m.pidHex with
                   | some p => if p ≠ "" then some (hexToNat p) else none
                   | none => none) ≠ cp ∨
                  (if m.vidHex ≠ "" then some (hexToNat m.vidHex) else none) ≠ cv
              · rw [if_pos hne, if_pos hne]
              · rw [if_neg hne, if_neg hne]
                cases hs : m.serial with
                | none => simpa [hs] using hrec
                | some sv =>
                  by_cases hsv : sv = ""
                  · simp only [hs, hsv] at hrec ⊢
                    simpa using hrec
                  · by_cases hw : isWordStr sv
                    · simp [hs, hsv, hw]
                    · simp only [hs] at hrec ⊢
                      rw [if_pos hsv] at hrec ⊢
                      simp [hw, hrec]

/-- **C3** (amended): for every ancestor chain the recursion cleanly
extracts, `get_parent_serial_number` returns exactly what the spec's policy
computes over that chain: ascend past VID/PID-matching ancestors whose
serial token is non-alphanumeric (remembering the token), return the first
alphanumeric serial on a VID/PID-matching ancestor, and otherwise fall back
to the most recently seen serial token, or the empty string when none was
seen. -/
theorem serial_recovery_matches_chain_policy (env : Env) (child : Nat)
    (cv cp : Option Nat) (levels : List Level)
    (h : chainFromEnv env child (MAX_USB_DEVICE_TREE_TRAVERSAL_DEPTH + 1) = some levels) :
    get_parent_serial_number env child cv cp 0 none =
      .ok (recoverSerialSpec cv cp levels none) :=
  gpsnGo_matches_spec env cv cp (MAX_USB_DEVICE_TREE_TRAVERSAL_DEPTH + 1) child 0 none levels
    rfl h

theorem serial_recovery_matches_chain_policy_witness :
    get_parent_serial_number envChainEphemeral 0 (some 0xAAAA) (some 0xBBBB) 0 none =
      .ok (recoverSerialSpec (some 0xAAAA) (some 0xBBBB)
        [.parsed (some 0xAAAA) (some 0xBBBB) (some "6&ABC"), .root] none) :=
  serial_recovery_matches_chain_policy envChainEphemeral 0 (some 0xAAAA) (some 0xBBBB)
    [.parsed (some 0xAAAA) (some 0xBBBB) (some "6&ABC"), .root] (by decide)

/-- **C4** (counterexample): two environments that agree on everything the
serial-recovery walk could observe within five parent-link follows from the
child, yet produce different results (`SER123` found on the sixth ancestor
versus the empty string at the root): the recursion follows a sixth parent
link. -/
theorem serial_recovery_follows_sixth_link :
    walkAgreeB envC4A envC4B 0 MAX_USB_DEVICE_TREE_TRAVERSAL_DEPTH = true ∧
    get_parent_serial_number envC4A 0 (some 0xAAAA) (some 0xBBBB) 0 none = .ok "SER123" ∧
    get_parent_serial_number envC4B 0 (some 0xAAAA) (some 0xBBBB) 0 none = .ok "" ∧
    ("SER123" : String) ≠ "" := by
  decide

/-- Environments that agree on the chain data up to `k` links give the
serial-recovery recursion identical results (`gas = k + 1` as in
`gpsnGo_matches_spec`). -/
theorem gpsnGo_agree (envA envB : Env) (cv cp : Option Nat) :
    ∀ (k child depth : Nat) (best : Option String),
      depth + k = MAX_USB_DEVICE_TREE_TRAVERSAL_DEPTH + 1 →
      walkAgreeB envA envB child k = true →
      gpsnGo envA child cv cp depth best (k + 1) =
        gpsnGo envB child cv cp depth best (k + 1) := by
  intro k
  induction k with
  | zero =>
    intro child depth best hd _
    have hgt : depth > MAX_USB_DEVICE_TREE_TRAVERSAL_DEPTH := by
      simp only [MAX_USB_DEVICE_TREE_TRAVERSAL_DEPTH] at hd ⊢
      omega
    rw [gpsnGo, gpsnGo, if_pos hgt, if_pos hgt]
  | succ k ih =>
    intro child depth best hd hw
    have hdepth : ¬ depth > MAX_USB_DEVICE_TREE_TRAVERSAL_DEPTH := by
      simp only [MAX_USB_DEVICE_TREE_TRAVERSAL_DEPTH] at hd ⊢
      omega
    rw [gpsnGo, gpsnGo, if_neg hdepth, if_neg hdepth]
    rw [walkAgreeB] at hw
    cases hpa : envA.cmGetParent child with
    | err r1 =>
      cases hpb : envB.cmGetParent child with
      | err r2 =>
        rw [hpa, hpb] at hw
        dsimp only at hw ⊢
        simp only [Bool.and_eq_true, beq_iff_eq] at hw
        obtain ⟨hr, hmap⟩ := hw
        subst hr
        rw [hmap]
      | ok p2 =>
        rw [hpa, hpb] at hw
        simp at hw
    | ok p1 =>
      cases hpb : envB.cmGetParent child with
      | err r2 =>
        rw [hpa, hpb] at hw
        simp at hw
      | ok p2 =>
        rw [hpa, hpb] at hw
        dsimp only at hw ⊢
        simp only [Bool.and_eq_true, beq_iff_eq] at hw
        obtain ⟨hp12, hw⟩ := hw
        subst hp12
        cases hia : envA.cmGetDeviceId p1 with
        | err s1 =>
          cases hib : envB.cmGetDeviceId p1 with
          | err s2 =>
            rw [hia, hib] at hw
            dsimp only at hw ⊢
            simp only [Bool.and_eq_true, beq_iff_eq] at hw
            obtain ⟨hs, hmap⟩ := hw
            subst hs
            rw [hmap]
          | ok i2 =>
            rw [hia, hib] at hw
            simp at hw
        | ok i1 =>
          cases hib : envB.cmGetDeviceId p1 with
          | err s2 =>
            rw [hia, hib] at hw
            simp at hw
          | ok i2 =>
            rw [hia, hib] at hw
            dsimp only at hw ⊢
            simp only [Bool.and_eq_true, beq_iff_eq] at hw
            obtain ⟨hi, hw⟩ := hw
            subst hi
            cases hm : findVidMatch i1.toList with
            | none => rfl
            | some m =>
              dsimp only
              by_cases hv :
                  ¬ optTruthy (if m.vidHex ≠ "" then some (hexToNat m.vidHex) else none) ∨
                  ¬ optTruthy (match m.pidHex with
                               | some p => if p ≠ "" then some (hexToNat p) else none
                               | none => none)
              · rw [if_pos hv, if_pos hv]
                exact ih p1 (depth + 1) _ (by omega) hw
              · rw [if_neg hv, if_neg hv]
                by_cases hne :
                    (match m.pidHex with
                     | some p => if p ≠ "" then some (hexToNat p) else none
                     | none => none) ≠ cp ∨
                    (if m.vidHex ≠ "" then some (hexToNat m.vidHex) else none) ≠ cv
                · rw [if_pos hne, if_pos hne]
                · rw [if_neg hne, if_neg hne]
                  cases hser : m.serial with
                  | none =>
                    dsimp only
                    exact ih p1 (depth + 1) _ (by omega) hw
                  | some sv =>
                    by_cases hsv : sv = ""
                    · subst hsv
                      simpa using ih p1 (depth + 1) none (by omega) hw
                    · dsimp only
                      have hsv2 : sv ≠ "" := hsv
                      rw [if_pos hsv2]
                      by_cases hword : isWordStr sv
                      · simp [hword]
                      · have hwf : isWordStr sv = false := by simpa using hword
                        simp only [hwf, Bool.not_false, if_true]
                        exact ih p1 (depth + 1) (some sv) (by omega) hw

/-- Environments that agree on the node-status and parent data up to `k`
iterations give the hub-discovery loop identical results. -/
theorem findHubLoop_agree (envA envB : Env) (hubs : List Nat) :
    ∀ (k child : Nat), hubAgreeB envA envB child k = true →
      findHubLoop envA hubs child k = findHubLoop envB hubs child k := by
  intro k
  induction k with
  | zero => intro child _; rfl
  | succ k ih =>
    intro child hw
    rw [hubAgreeB] at hw
    simp only [Bool.and_eq_true, beq_iff_eq] at hw
    obtain ⟨hst, hw⟩ := hw
    rw [findHubLoop, findHubLoop]
    unfold get_parent_device_instance_number
    cases hs : envA.nodeStatusOk child with
    | false =>
      rw [hs] at hst
      rw [← hst]
      rfl
    | true =>
      rw [hs] at hst hw
      rw [← hst]
      simp only [if_true] at hw ⊢
      cases hpa : envA.cmGetParent child with
      | err r1 =>
        cases hpb : envB.cmGetParent child with
        | err r2 => rfl
        | ok p2 => rw [hpa, hpb] at hw; simp at hw
      | ok p1 =>
        cases hpb : envB.cmGetParent child with
        | err r2 => rw [hpa, hpb] at hw; simp at hw
        | ok p2 =>
          rw [hpa, hpb] at hw
          dsimp only at hw ⊢
          simp only [Bool.and_eq_true, beq_iff_eq] at hw
          obtain ⟨hp12, hw⟩ := hw
          subst hp12
          by_cases hmem : p1 ∈ hubs
          · rw [if_pos hmem, if_pos hmem]
          · rw [if_neg hmem, if_neg hmem]
            exact ih p1 hw

/-- **C4** (amended): the hub-discovery loop observes at most `max_depth = 5`
parent links, while the serial-recovery recursion observes at most
`max_depth + 1 = 6` (it aborts only once `depth` exceeds the bound);
exhausting either bound or reaching the tree root yields a best-seen /
not-found result, never an error. -/
theorem ancestor_walk_bounds (envA envB : Env) (cv cp : Option Nat)
    (hubs : List Nat) (child depth : Nat) (last : Option String) (r : Nat) :
    (walkAgreeB envA envB child (MAX_USB_DEVICE_TREE_TRAVERSAL_DEPTH + 1) = true →
      get_parent_serial_number envA child cv cp 0 none =
        get_parent_serial_number envB child cv cp 0 none) ∧
    (hubAgreeB envA envB child MAX_USB_DEVICE_TREE_TRAVERSAL_DEPTH = true →
      findHubLoop envA hubs child (max MAX_USB_DEVICE_TREE_TRAVERSAL_DEPTH 1) =
        findHubLoop envB hubs child (max MAX_USB_DEVICE_TREE_TRAVERSAL_DEPTH 1)) ∧
    (depth > MAX_USB_DEVICE_TREE_TRAVERSAL_DEPTH →
      get_parent_serial_number envA child cv cp depth last = .ok (truthyOrEmpty last)) ∧
    (envA.cmGetParent child = .err r → envA.mapCrToWin32 r = ERROR_NOT_FOUND →
      get_parent_serial_number envA child cv cp 0 last = .ok (truthyOrEmpty last)) ∧
    findHubLoop envA hubs child 0 = none := by
  refine ⟨?_, ?_, ?_, ?_, rfl⟩
  · intro hagree
    exact gpsnGo_agree envA envB cv cp (MAX_USB_DEVICE_TREE_TRAVERSAL_DEPTH + 1)
      child 0 none rfl hagree
  · intro hagree
    have hmax : max MAX_USB_DEVICE_TREE_TRAVERSAL_DEPTH 1 =
        MAX_USB_DEVICE_TREE_TRAVERSAL_DEPTH := by decide
    rw [hmax]
    exact findHubLoop_agree envA envB hubs MAX_USB_DEVICE_TREE_TRAVERSAL_DEPTH child hagree
  · intro hgt
    unfold get_parent_serial_number
    cases hg : MAX_USB_DEVICE_TREE_TRAVERSAL_DEPTH + 2 - depth with
    | zero => rw [gpsnGo]
    | succ g => rw [gpsnGo, if_pos hgt]
  · intro h1 h2
    show gpsnGo envA child cv cp 0 last (MAX_USB_DEVICE_TREE_TRAVERSAL_DEPTH + 2 - 0) =
      .ok (truthyOrEmpty last)
    show gpsnGo envA child cv cp 0 last (6 + 1) = .ok (truthyOrEmpty last)
    rw [gpsnGo, if_neg (by decide), h1]
    dsimp only
    rw [if_pos h2]

/-- Every terminal of the post-descriptor region is `.raised`, `.hang`, or
`.ret true`: once a device descriptor is in hand the function never returns
`False`. -/
theorem usbInfoMain_unchangedOnFalse (env : Env) (fuel devinst : Nat)
    (hardware_id : String) (child_instance_number h_hub_device usb_hub_port : Nat)
    (connection_info : Option USB_NODE_CONNECTION_INFORMATION_EX)
    (device_description : USB_DEVICE_DESCRIPTOR) (info info0 : Info) :
    Info.unchangedOnFalse
      (usbInfoMain env fuel devinst hardware_id child_instance_number h_hub_device
        usb_hub_port connection_info device_description info) info0 := by
  unfold usbInfoMain
  repeat' first
    | trivial
    | split
    | dsimp only

/-- **C9**: whenever `get_usb_info_from_iocontrol` returns `False`, the info
record it hands back is exactly the one it received: every failure return
happens before the first field assignment. -/
theorem iocontrol_false_leaves_info_unchanged (env : Env) (fuel devinst : Nat)
    (hardware_id : String) (hub_instance_numbers : List Nat) (info : Info) :
    Info.unchangedOnFalse
      (get_usb_info_from_iocontrol env fuel devinst hardware_id hub_instance_numbers info)
      info := by
  unfold get_usb_info_from_iocontrol
  repeat' first
    | split
    | dsimp only
  all_goals first
    | rfl
    | trivial
    | apply usbInfoMain_unchangedOnFalse

/-- **C1**: a concrete run in which the hub handle is opened and an
exception (`NotImplementedError` for an unsupported property type, raised at
the location-paths read of line 772) propagates out of
`get_usb_info_from_iocontrol` with zero `CloseHandle` calls — the function
has no `try`/`finally`, so this exit path leaks the hub handle, contradicting
the claim that the handle is closed on every exit path. -/
theorem usb_iocontrol_handle_leak_on_exception :
    (get_usb_info_from_iocontrol envC1 1 10 "" [11] (ListPortInfo.init "COM3")).isRaised =
      true ∧
    (get_usb_info_from_iocontrol envC1 1 10 "" [11]
      (ListPortInfo.init "COM3")).closeCallCount = some 0 ∧
    (get_usb_info_from_iocontrol envC1 1 10 "" [11] (ListPortInfo.init "COM3")).hubOpened =
      some true := by
  decide
